import Mathlib

/-!
Verification of the indy-vdr covered core: the ledger catchup handler
(`src/indy-vdr/src/pool/handlers/catchup.rs`) and the DID URL resolver
(`src/libindy_vdr/src/resolver/resolver.rs`), shallowly embedded in Lean.
Transactions and raw bytes are modelled as lists of naturals, machine
integers as `Int`/`Nat`, fallible Rust functions as `Except`, and the
asynchronous event stream of the catchup loop as a list of events.
-/

namespace Catchup

/-- Serialized transaction bytes (`Vec<u8>`), modelled as a list of naturals. -/
abbrev Txn := List Nat

/-- Modelled from the spec: `MerkleTree` (crate `common::merkle_tree`, outside the
covered sources) is a leaf sequence with leaf count `n ≥ 0` whose root is a pure
function of the leaf sequence; it is cloned per catchup attempt and mutated only
by `append`. We represent it by its leaf sequence. -/
structure MerkleTree where
  leaves : List Txn
deriving DecidableEq, Repr

/-- `MerkleTree::count`: the leaf count. -/
def MerkleTree.count (t : MerkleTree) : Nat := t.leaves.length

/-- Modelled from the spec: `append(tree, txn_bytes) → tree'` extends the leaf
sequence by one leaf derived from the serialized transaction. -/
def MerkleTree.append (t : MerkleTree) (txn : Txn) : MerkleTree := ⟨t.leaves ++ [txn]⟩

/-- Modelled from the spec: the root is a pure function of the leaf sequence; we
take the canonical injective choice, the leaf sequence itself. -/
def merkleRoot (t : MerkleTree) : List Txn := t.leaves

/-- Error kinds of `LedgerErrorKind` used by the catchup handler. -/
inductive LedgerErrorKind where
  | invalidState
  | poolTimeout
  | input
deriving DecidableEq, Repr

/-- A `LedgerError`: a kind together with its message (`err_msg`). -/
structure LedgerError where
  kind : LedgerErrorKind
  message : String
deriving DecidableEq, Repr

/-- `err_msg(kind, msg)`. -/
def errMsg (k : LedgerErrorKind) (m : String) : LedgerError := ⟨k, m⟩

/-- `CatchupReq { ledgerId, seqNoStart, seqNoEnd, catchupTill }`. -/
structure CatchupReq where
  ledgerId : Nat
  seqNoStart : Nat
  seqNoEnd : Nat
  catchupTill : Nat
deriving DecidableEq, Repr

/-- `CatchupRep`: ordered transaction bytes (the result of `load_txns`) and the
consistency proof, a list of encoded hashes. -/
structure CatchupRep where
  txns : List Txn
  consProof : List String
deriving DecidableEq, Repr

/-- The node-to-client `Message` variants the catchup handler distinguishes:
a `CatchupRep`, an outgoing `CatchupReq`, and every other message shape
(LedgerStatus, ConsistencyProof, ReqNACK, ...), which the handler treats
uniformly as unexpected. -/
inductive Message where
  | catchupReq (cr : CatchupReq)
  | catchupRep (cr : CatchupRep)
  | other
deriving DecidableEq, Repr

/-- `RequestEvent`: an event delivered by the pool request stream. -/
inductive RequestEvent where
  | received (nodeAlias : String) (parsed : Message)
  | timeout (nodeAlias : String)
deriving DecidableEq, Repr

/-- `RequestResult`: terminal outcome of a pool request. -/
inductive RequestResult (α : Type) where
  | reply (a : α)
  | failed (e : LedgerError)
deriving DecidableEq, Repr

/-- Modelled from the spec: `check_cons_proofs` (outside the covered sources)
validates that folding the consistency proof over the current root reproduces
the target root at leaf count `target_mt_size`. In this model the root is the
leaf sequence itself, so validation amounts to recomputing the root at the
target leaf count; the proof hashes carry no extra information and a reply is
accepted exactly when the appended tree has the target size and target root. -/
def checkConsProofs (merkle : MerkleTree) (consProof : List String)
    (targetMtRoot : List Txn) (targetMtSize : Nat) : Except LedgerError Unit :=
  if merkle.count = targetMtSize ∧ merkleRoot merkle = targetMtRoot then
    Except.ok ()
  else
    Except.error (errMsg .input "Consistency proof verification failed")

/-- `process_catchup_reply`: clone the source tree, append each transaction of
the reply in order, and check the consistency proof against the target root and
size; on success return the transactions unchanged. -/
def processCatchupReply (sourceTree : MerkleTree) (targetMtRoot : List Txn)
    (targetMtSize : Nat) (txns : List Txn) (consProof : List String) :
    Except LedgerError (List Txn) :=
  let merkle := txns.foldl MerkleTree.append sourceTree
  match checkConsProofs merkle consProof targetMtRoot targetMtSize with
  | Except.ok _ => Except.ok txns
  | Except.error e => Except.error e

/-- The event loop of `handle_catchup_request`, consuming the pool's event
stream (modelled as a list; `None` from the stream is the empty list). Returns
the terminal `RequestResult` together with the number of `send_to_any` dispatch
calls made inside the loop (re-dispatches after a rejected reply or a timeout).
The caller's `merkle_tree` is taken by shared reference throughout: every
attempt re-clones it inside `process_catchup_reply`. The external pool calls
(`send_to_any`, `clean_timeout`) and `CatchupRep::load_txns` are modelled as
succeeding, with the loaded transactions stored in the `CatchupRep`. -/
def catchupLoop (merkleTree : MerkleTree) (targetMtRoot : List Txn)
    (targetMtSize : Nat) : List RequestEvent → RequestResult (List Txn) × Nat
  | [] => (.failed (errMsg .poolTimeout "Request timeout"), 0)
  | RequestEvent.received _ parsed :: rest =>
    match parsed with
    | Message.catchupRep cr =>
      match processCatchupReply merkleTree targetMtRoot targetMtSize
          cr.txns cr.consProof with
      | Except.ok txns => (.reply txns, 0)
      | Except.error _ =>
        let next := catchupLoop merkleTree targetMtRoot targetMtSize rest
        (next.1, next.2 + 1)
    | _ => (.failed (errMsg .invalidState "Unexpected response"), 0)
  | RequestEvent.timeout _ :: rest =>
    let next := catchupLoop merkleTree targetMtRoot targetMtSize rest
    (next.1, next.2 + 1)

/-- `handle_catchup_request`: one initial `send_to_any(1, ack_timeout)` dispatch
followed by the event loop. The second component counts every dispatch of the
session (initial send included). -/
def handleCatchupRequest (events : List RequestEvent) (merkleTree : MerkleTree)
    (targetMtRoot : List Txn) (targetMtSize : Nat) :
    RequestResult (List Txn) × Nat :=
  let r := catchupLoop merkleTree targetMtRoot targetMtSize events
  (r.1, r.2 + 1)

/-- `build_catchup_req`: fail with `InvalidState` when the local tree already
has at least `target_mt_size` leaves, otherwise build the `CatchupReq`. -/
def buildCatchupReq (merkle : MerkleTree) (targetMtSize : Nat) :
    Except LedgerError Message :=
  if merkle.count ≥ targetMtSize then
    Except.error (errMsg .invalidState "No transactions to catch up")
  else
    Except.ok (Message.catchupReq
      ⟨0, merkle.count + 1, targetMtSize, targetMtSize⟩)

theorem foldl_append_leaves (txns : List Txn) (t : MerkleTree) :
    (txns.foldl MerkleTree.append t).leaves = t.leaves ++ txns := by
  induction txns generalizing t with
  | nil => simp
  | cons x xs ih =>
    simp only [List.foldl_cons, ih, MerkleTree.append]
    simp

theorem processCatchupReply_eq (s : MerkleTree) (r : List Txn) (n : Nat)
    (txns : List Txn) (p : List String) :
    processCatchupReply s r n txns p =
      if (txns.foldl MerkleTree.append s).count = n ∧
          merkleRoot (txns.foldl MerkleTree.append s) = r then
        Except.ok txns
      else
        Except.error (errMsg .input "Consistency proof verification failed") := by
  by_cases hc : (txns.foldl MerkleTree.append s).count = n ∧
      merkleRoot (txns.foldl MerkleTree.append s) = r
  · simp [processCatchupReply, checkConsProofs, hc]
  · simp [processCatchupReply, checkConsProofs, hc]

theorem catchupLoop_reply (merkleTree : MerkleTree) (targetMtRoot : List Txn)
    (targetMtSize : Nat) (events : List RequestEvent) (txns : List Txn)
    (h : (catchupLoop merkleTree targetMtRoot targetMtSize events).1 =
      RequestResult.reply txns) :
    (txns.foldl MerkleTree.append merkleTree).count = targetMtSize ∧
      merkleRoot (txns.foldl MerkleTree.append merkleTree) = targetMtRoot := by
  induction events with
  | nil => simp [catchupLoop] at h
  | cons e rest ih =>
    match e with
    | RequestEvent.timeout _ =>
      simp only [catchupLoop] at h
      exact ih h
    | RequestEvent.received a parsed =>
      match parsed with
      | Message.catchupReq _ => simp [catchupLoop] at h
      | Message.other => simp [catchupLoop] at h
      | Message.catchupRep cr =>
        simp only [catchupLoop, processCatchupReply_eq] at h
        by_cases hc : (cr.txns.foldl MerkleTree.append merkleTree).count =
            targetMtSize ∧
            merkleRoot (cr.txns.foldl MerkleTree.append merkleTree) =
              targetMtRoot
        · simp only [if_pos hc] at h
          cases h
          exact hc
        · simp only [if_neg hc] at h
          exact ih h

theorem catchupLoop_failed (merkleTree : MerkleTree) (targetMtRoot : List Txn)
    (targetMtSize : Nat) (events : List RequestEvent) (e : LedgerError)
    (h : (catchupLoop merkleTree targetMtRoot targetMtSize events).1 =
      RequestResult.failed e) :
    e = errMsg .poolTimeout "Request timeout" ∨
      e = errMsg .invalidState "Unexpected response" := by
  induction events with
  | nil =>
    simp only [catchupLoop, RequestResult.failed.injEq] at h
    exact Or.inl h.symm
  | cons ev rest ih =>
    match ev with
    | RequestEvent.timeout _ =>
      simp only [catchupLoop] at h
      exact ih h
    | RequestEvent.received a parsed =>
      match parsed with
      | Message.catchupReq _ =>
        simp only [catchupLoop, RequestResult.failed.injEq] at h
        exact Or.inr h.symm
      | Message.other =>
        simp only [catchupLoop, RequestResult.failed.injEq] at h
        exact Or.inr h.symm
      | Message.catchupRep cr =>
        simp only [catchupLoop, processCatchupReply_eq] at h
        by_cases hc : (cr.txns.foldl MerkleTree.append merkleTree).count =
            targetMtSize ∧
            merkleRoot (cr.txns.foldl MerkleTree.append merkleTree) =
              targetMtRoot
        · simp only [if_pos hc] at h
          cases h
        · simp only [if_neg hc] at h
          exact ih h

/-- C1: for every successful catchup session with local tree of size `n` and
target size `N > n`, `handle_catchup_request` returns `Reply(txns)` only after
appending the reply's transactions in order to a clone of the local tree and
verifying the consistency proof: the returned transaction sequence has length
exactly `N − n` and, appended in order to the caller's tree, yields a tree
whose consistency proof verifies against `target_mt_root` at size `N`. -/
theorem catchup_success_length_and_verify
    (events : List RequestEvent) (merkleTree : MerkleTree)
    (targetMtRoot : List Txn) (targetMtSize : Nat)
    (txns : List Txn) (sends : Nat)
    (hsize : merkleTree.count < targetMtSize)
    (h : handleCatchupRequest events merkleTree targetMtRoot targetMtSize =
      (RequestResult.reply txns, sends)) :
    txns.length = targetMtSize - merkleTree.count ∧
      ∀ proof : List String,
        checkConsProofs (txns.foldl MerkleTree.append merkleTree) proof
          targetMtRoot targetMtSize = Except.ok () := by
  have h1 : (catchupLoop merkleTree targetMtRoot targetMtSize events).1 =
      RequestResult.reply txns := by
    have h2 := congrArg Prod.fst h
    simpa [handleCatchupRequest] using h2
  obtain ⟨hcount, hroot⟩ := catchupLoop_reply _ _ _ _ _ h1
  constructor
  · have h3 : (txns.foldl MerkleTree.append merkleTree).count =
        merkleTree.count + txns.length := by
      simp [MerkleTree.count, foldl_append_leaves]
    omega
  · intro proof
    simp [checkConsProofs, hcount, hroot]

theorem catchup_success_length_and_verify_witness :
    ([[2]] : List Txn).length = 2 - (MerkleTree.mk [[1]]).count ∧
      ∀ proof : List String,
        checkConsProofs (([[2]] : List Txn).foldl MerkleTree.append ⟨[[1]]⟩)
          proof [[1], [2]] 2 = Except.ok () :=
  catchup_success_length_and_verify
    [RequestEvent.received "n1" (Message.catchupRep ⟨[[2]], []⟩)]
    ⟨[[1]]⟩ [[1], [2]] 2 [[2]] 1 (by decide) rfl

/-- C5: a `CatchupRep` whose appended contents fail consistency-proof
verification does not make the engine return a result and does not mutate the
caller's tree: the session continues exactly as the remaining event stream
dictates, against the same (re-cloned) source tree, and one more attempt is
dispatched (`send_to_any`) to a peer. -/
theorem catchup_rejected_reply_no_return_redispatch
    (nodeAlias : String) (cr : CatchupRep) (rest : List RequestEvent)
    (merkleTree : MerkleTree) (targetMtRoot : List Txn) (targetMtSize : Nat)
    (e : LedgerError)
    (hfail : processCatchupReply merkleTree targetMtRoot targetMtSize
      cr.txns cr.consProof = Except.error e) :
    catchupLoop merkleTree targetMtRoot targetMtSize
        (RequestEvent.received nodeAlias (Message.catchupRep cr) :: rest) =
      ((catchupLoop merkleTree targetMtRoot targetMtSize rest).1,
        (catchupLoop merkleTree targetMtRoot targetMtSize rest).2 + 1) := by
  simp only [catchupLoop, hfail]

theorem catchup_rejected_reply_witness :
    catchupLoop ⟨[[1]]⟩ [[1], [2]] 2
        [RequestEvent.received "n1" (Message.catchupRep ⟨[[9]], []⟩)] =
      ((catchupLoop ⟨[[1]]⟩ [[1], [2]] 2 []).1,
        (catchupLoop ⟨[[1]]⟩ [[1], [2]] 2 []).2 + 1) :=
  catchup_rejected_reply_no_return_redispatch "n1" ⟨[[9]], []⟩ []
    ⟨[[1]]⟩ [[1], [2]] 2
    (errMsg .input "Consistency proof verification failed") rfl

/-- C8: within the catchup event loop a `Timeout` event causes re-dispatch to
another peer without terminating the session; a received non-`CatchupRep`
message terminates with `Failed(InvalidState "Unexpected response")`; an
exhausted event stream terminates with `Failed(PoolTimeout "Request timeout")`;
and these two are the only failure outcomes of the session. -/
theorem catchup_timeout_retries_and_terminal_failures
    (merkleTree : MerkleTree) (targetMtRoot : List Txn) (targetMtSize : Nat) :
    (∀ (nodeAlias : String) (rest : List RequestEvent),
      catchupLoop merkleTree targetMtRoot targetMtSize
          (RequestEvent.timeout nodeAlias :: rest) =
        ((catchupLoop merkleTree targetMtRoot targetMtSize rest).1,
          (catchupLoop merkleTree targetMtRoot targetMtSize rest).2 + 1)) ∧
    (catchupLoop merkleTree targetMtRoot targetMtSize [] =
      (RequestResult.failed (errMsg .poolTimeout "Request timeout"), 0)) ∧
    (∀ (nodeAlias : String) (parsed : Message) (rest : List RequestEvent),
      (∀ cr, parsed ≠ Message.catchupRep cr) →
      catchupLoop merkleTree targetMtRoot targetMtSize
          (RequestEvent.received nodeAlias parsed :: rest) =
        (RequestResult.failed (errMsg .invalidState "Unexpected response"),
          0)) ∧
    (∀ (events : List RequestEvent) (e : LedgerError) (sends : Nat),
      handleCatchupRequest events merkleTree targetMtRoot targetMtSize =
        (RequestResult.failed e, sends) →
      e = errMsg .poolTimeout "Request timeout" ∨
        e = errMsg .invalidState "Unexpected response") := by
  refine ⟨fun nodeAlias rest => rfl, rfl, fun nodeAlias parsed rest hne => ?_,
    fun events e sends h => ?_⟩
  · match parsed with
    | Message.catchupReq _ => rfl
    | Message.other => rfl
    | Message.catchupRep cr => exact absurd rfl (hne cr)
  · have h1 : (catchupLoop merkleTree targetMtRoot targetMtSize events).1 =
        RequestResult.failed e := by
      have h2 := congrArg Prod.fst h
      simpa [handleCatchupRequest] using h2
    exact catchupLoop_failed _ _ _ _ _ h1

theorem catchup_timeout_retries_witness :
    (catchupLoop ⟨[]⟩ [] 1 [RequestEvent.timeout "n1"] =
      ((catchupLoop ⟨[]⟩ [] 1 []).1, (catchupLoop ⟨[]⟩ [] 1 []).2 + 1)) ∧
    (errMsg .invalidState "Unexpected response" =
        errMsg .poolTimeout "Request timeout" ∨
      errMsg .invalidState "Unexpected response" =
        errMsg .invalidState "Unexpected response") :=
  ⟨(catchup_timeout_retries_and_terminal_failures ⟨[]⟩ [] 1).1 "n1" [],
    (catchup_timeout_retries_and_terminal_failures ⟨[]⟩ [] 1).2.2.2
      [RequestEvent.received "n1" Message.other]
      (errMsg .invalidState "Unexpected response") 1 rfl⟩

/-- C9: `build_catchup_req` fails with
`InvalidState("No transactions to catch up")` exactly when the local tree's
leaf count `n` is at least the target size `N`; otherwise it returns a
`CatchupReq` with `ledgerId = 0`, `seqNoStart = n + 1`, `seqNoEnd = N` and
`catchupTill = N`. -/
theorem build_catchup_req_boundary (merkle : MerkleTree) (targetMtSize : Nat) :
    (buildCatchupReq merkle targetMtSize =
        Except.error (errMsg .invalidState "No transactions to catch up") ↔
      targetMtSize ≤ merkle.count) ∧
    (merkle.count < targetMtSize →
      buildCatchupReq merkle targetMtSize =
        Except.ok (Message.catchupReq
          ⟨0, merkle.count + 1, targetMtSize, targetMtSize⟩)) := by
  unfold buildCatchupReq
  by_cases h : merkle.count ≥ targetMtSize
  · rw [if_pos h]
    exact ⟨⟨fun _ => h, fun _ => rfl⟩, fun hlt => absurd h (by omega)⟩
  · rw [if_neg h]
    refine ⟨⟨fun he => ?_, fun hle => absurd hle h⟩, fun _ => rfl⟩
    cases he

theorem build_catchup_req_boundary_witness :
    (MerkleTree.mk []).count < 3 ∧
      buildCatchupReq ⟨[]⟩ 3 =
        Except.ok (Message.catchupReq ⟨0, 1, 3, 3⟩) :=
  ⟨by decide, (build_catchup_req_boundary ⟨[]⟩ 3).2 (by decide)⟩

end Catchup

namespace Resolver

/-- Modelled from the spec: `serde_json::Value` restricted to the shapes the
resolver inspects (null, strings, numbers and objects); an object is encoded
as a cons list of key/value pairs folded into the same inductive so that
equality stays derivable. Raw JSON strings exchanged with the pool are
modelled as already-parsed values. -/
inductive Json where
  | null
  | str (s : String)
  | num (n : Int)
  | objNil
  | objCons (key : String) (value : Json) (rest : Json)
deriving DecidableEq, Repr

/-- `value[key]` in serde: the value of the first matching key of an object,
and `Null` on a missing key or a non-object. -/
def Json.getField : Json → String → Json
  | Json.objCons k v rest, key => if k = key then v else rest.getField key
  | _, _ => Json.null

/-- The `VdrErrorKind` variants the resolver produces or forwards. -/
inductive VdrErrorKind where
  | resolver
  | poolRequestFailed
  | connection
deriving DecidableEq, Repr

/-- A `VdrError`: a kind together with its message (`err_msg`). -/
structure VdrError where
  kind : VdrErrorKind
  message : String
deriving DecidableEq, Repr

/-- `QueryParameter`: the recognized DID URL query keys. -/
inductive QueryParameter where
  | versionId
  | versionTime
  | fromParam
  | toParam
deriving DecidableEq, Repr

/-- Modelled from the spec: a parsed `DidUrl` — namespace, method-specific id,
optional object path and the keyed query map (a map from recognized keys to
raw string values; path segments are already percent-decoded). -/
structure DidUrl where
  nameSpace : String
  id : String
  path : Option String
  query : List (QueryParameter × String)
deriving DecidableEq, Repr

/-- `did.query.get(&key)` on the query map. -/
def queryGet (q : List (QueryParameter × String)) (p : QueryParameter) :
    Option String :=
  (q.find? (fun kv => kv.1 == p)).map (fun kv => kv.2)

/-- Fields of a `SCHEMA` ledger-object path. -/
structure SchemaFields where
  name : String
  version : String
deriving DecidableEq, Repr

/-- Fields of a `CLAIM_DEF` ledger-object path. -/
structure ClaimDefFields where
  schemaSeqNo : Nat
  name : String
deriving DecidableEq, Repr

/-- Fields of the `REV_REG_DEF`, `REV_REG_ENTRY` and `REV_REG_DELTA`
ledger-object paths. -/
structure RevRegFields where
  schemaSeqNo : Nat
  claimDefName : String
  tag : String
deriving DecidableEq, Repr

/-- `LedgerObject`: the object kind carried by a DID URL path. -/
inductive LedgerObject where
  | schemaKind (s : SchemaFields)
  | claimDef (c : ClaimDefFields)
  | revRegDef (r : RevRegFields)
  | revRegEntry (r : RevRegFields)
  | revRegDelta (r : RevRegFields)
deriving DecidableEq, Repr

/-- The `ResolverError("invalid DID URL")` produced on a malformed path. -/
def invalidDidUrlError : VdrError := ⟨.resolver, "invalid DID URL"⟩

/-- Numeric value of an ASCII digit. -/
def digitVal (c : Char) : Option Nat :=
  if c.isDigit then some (c.toNat - 48) else none

/-- Accumulate a decimal number over a digit list, failing on a non-digit. -/
def parseNatDigits : List Char → Nat → Option Nat
  | [], acc => some acc
  | c :: cs, acc =>
    match digitVal c with
    | some d => parseNatDigits cs (acc * 10 + d)
    | none => none

/-- Parse a non-empty all-digit segment as a natural number
(`str::parse::<usize>`). -/
def parseNatSeg (s : String) : Option Nat :=
  match s.toList with
  | [] => none
  | cs => parseNatDigits cs 0

/-- Parse an optionally-negated non-empty digit string as an integer
(`str::parse::<i32>`; the 32-bit range check is not modelled). -/
def parseIntSeg (s : String) : Option Int :=
  match s.toList with
  | '-' :: cs =>
    match cs with
    | [] => none
    | _ => (parseNatDigits cs 0).map (fun n => -(n : Int))
  | [] => none
  | cs => (parseNatDigits cs 0).map (fun n => (n : Int))

/-- Split a character list on `'/'` (the accumulator holds the current segment
reversed). -/
def splitSegsAux : List Char → List Char → List String
  | [], acc => [String.mk acc.reverse]
  | '/' :: rest, acc => String.mk acc.reverse :: splitSegsAux rest []
  | c :: rest, acc => splitSegsAux rest (c :: acc)

/-- Split a string into its slash-delimited segments. -/
def splitSegs (s : String) : List String := splitSegsAux s.toList []

/-- Modelled from the spec: `LedgerObject::from_str` (module `resolver::did`,
outside the covered sources) parses a slash-delimited path beginning with
`anoncreds/v0/<OBJECT_KIND>/...` into a `LedgerObject`; an unknown object kind
or missing required fields yield `ResolverError("invalid DID URL")`. Segments
are already percent-decoded (spec invariant of `DidUrl`). -/
def LedgerObject.fromStr (s : String) : Except VdrError LedgerObject :=
  let segs :=
    match splitSegs s with
    | "" :: rest => rest
    | xs => xs
  match segs with
  | ["anoncreds", "v0", "SCHEMA", name, version] =>
    Except.ok (LedgerObject.schemaKind ⟨name, version⟩)
  | ["anoncreds", "v0", "CLAIM_DEF", seqNo, name] =>
    match parseNatSeg seqNo with
    | some n => Except.ok (LedgerObject.claimDef ⟨n, name⟩)
    | none => Except.error invalidDidUrlError
  | ["anoncreds", "v0", "REV_REG_DEF", seqNo, claimDefName, tag] =>
    match parseNatSeg seqNo with
    | some n => Except.ok (LedgerObject.revRegDef ⟨n, claimDefName, tag⟩)
    | none => Except.error invalidDidUrlError
  | ["anoncreds", "v0", "REV_REG_ENTRY", seqNo, claimDefName, tag] =>
    match parseNatSeg seqNo with
    | some n => Except.ok (LedgerObject.revRegEntry ⟨n, claimDefName, tag⟩)
    | none => Except.error invalidDidUrlError
  | ["anoncreds", "v0", "REV_REG_DELTA", seqNo, claimDefName, tag] =>
    match parseNatSeg seqNo with
    | some n => Except.ok (LedgerObject.revRegDelta ⟨n, claimDefName, tag⟩)
    | none => Except.error invalidDidUrlError
  | _ => Except.error invalidDidUrlError

/-- Parse exactly `width` ASCII digits from the front of a character list. -/
def parseFixedNat : Nat → List Char → Option (Nat × List Char)
  | 0, cs => some (0, cs)
  | width + 1, c :: cs =>
    match digitVal c with
    | some d =>
      match parseFixedNat width cs with
      | some (rest, cs') => some (d * 10 ^ width + rest, cs')
      | none => none
    | none => none
  | _ + 1, [] => none

/-- Consume one expected character. -/
def expectChar (c : Char) : List Char → Option (List Char)
  | x :: xs => if x = c then some xs else none
  | [] => none

/-- Gregorian leap-year test. -/
def isLeapYear (y : Nat) : Bool :=
  (y % 4 == 0 && y % 100 != 0) || y % 400 == 0

/-- Days in a Gregorian month. -/
def daysInMonth (y m : Nat) : Nat :=
  if m = 2 then (if isLeapYear y then 29 else 28)
  else if m = 4 ∨ m = 6 ∨ m = 9 ∨ m = 11 then 30
  else 31

/-- Days from 1970-01-01 to calendar date `y-m-d` (civil-from-days inverse,
with truncating integer division). -/
def daysFromCivil (y m d : Nat) : Int :=
  let yAdj : Int := if m ≤ 2 then (y : Int) - 1 else (y : Int)
  let era : Int := (if 0 ≤ yAdj then yAdj else yAdj - 399) / 400
  let yoe : Int := yAdj - era * 400
  let mp : Int := if 2 < m then (m : Int) - 3 else (m : Int) + 9
  let doy : Int := (153 * mp + 2) / 5 + (d : Int) - 1
  let doe : Int := yoe * 365 + yoe / 4 - yoe / 100 + doy
  era * 146097 + doe - 719468

/-- Consume an optional fractional-seconds part: a dot followed by at least one
digit. -/
def parseFraction : List Char → Option (List Char)
  | '.' :: c :: cs =>
    if c.isDigit then some (cs.dropWhile Char.isDigit) else none
  | '.' :: [] => none
  | cs => some cs

/-- Parse the zone designator closing an RFC 3339 timestamp: `Z`/`z` or a
signed `HH:MM` offset, in seconds. -/
def parseZone : List Char → Option Int
  | [c] => if c = 'Z' ∨ c = 'z' then some 0 else none
  | c :: rest =>
    if c = '+' ∨ c = '-' then
      match parseFixedNat 2 rest with
      | some (h, ':' :: rest2) =>
        match parseFixedNat 2 rest2 with
        | some (mi, []) =>
          if h ≤ 23 ∧ mi ≤ 59 then
            let off : Int := (h : Int) * 3600 + (mi : Int) * 60
            some (if c = '+' then off else -off)
          else none
        | _ => none
      | _ => none
    else none
  | [] => none

/-- Modelled from the spec: `OffsetDateTime::parse(_, &Rfc3339)` followed by
`unix_timestamp()` (crate `time`, outside the covered sources): parse an
RFC 3339 `date-time` (`YYYY-MM-DDTHH:MM:SS`, optional fractional seconds,
`Z` or `±HH:MM` offset) and return unix seconds, `none` on any malformed or
out-of-range component. -/
def parseRfc3339 (s : String) : Option Int := do
  let cs0 := s.toList
  let (y, cs1) ← parseFixedNat 4 cs0
  let cs2 ← expectChar '-' cs1
  let (mo, cs3) ← parseFixedNat 2 cs2
  let cs4 ← expectChar '-' cs3
  let (d, cs5) ← parseFixedNat 2 cs4
  let cs6 ← match cs5 with
    | c :: rest => if c = 'T' ∨ c = 't' then some rest else none
    | [] => none
  let (h, cs7) ← parseFixedNat 2 cs6
  let cs8 ← expectChar ':' cs7
  let (mi, cs9) ← parseFixedNat 2 cs8
  let cs10 ← expectChar ':' cs9
  let (sec, cs11) ← parseFixedNat 2 cs10
  let cs12 ← parseFraction cs11
  let off ← parseZone cs12
  if 1 ≤ mo ∧ mo ≤ 12 ∧ 1 ≤ d ∧ d ≤ daysInMonth y mo ∧
      h ≤ 23 ∧ mi ≤ 59 ∧ sec ≤ 59 then
    pure (daysFromCivil y mo d * 86400 +
      (h : Int) * 3600 + (mi : Int) * 60 + (sec : Int) - off)
  else
    none

/-- `parse_or_now`: parse a supplied RFC 3339 datetime to unix seconds, failing
with `ResolverError("Could not parse datetime …")` on a parse error; default to
the current wall-clock time (passed explicitly as `now`) when absent. -/
def parseOrNow (datetime : Option String) (now : Int) : Except VdrError Int :=
  match datetime with
  | some dt =>
    match parseRfc3339 dt with
    | some t => Except.ok t
    | none =>
      Except.error ⟨.resolver, "Could not parse datetime " ++ dt⟩
  | none => Except.ok now

/-- Transaction-type constant `GET_ATTR`. -/
def GET_ATTR : String := "104"

/-- Transaction-type constant `GET_NYM`. -/
def GET_NYM : String := "105"

/-- Transaction-type constant `GET_SCHEMA`. -/
def GET_SCHEMA : String := "107"

/-- Transaction-type constant `GET_CRED_DEF`. -/
def GET_CRED_DEF : String := "108"

/-- Transaction-type constant `GET_REVOC_REG_DEF`. -/
def GET_REVOC_REG_DEF : String := "115"

/-- Transaction-type constant `GET_REVOC_REG`. -/
def GET_REVOC_REG : String := "116"

/-- Transaction-type constant `GET_REVOC_REG_DELTA`. -/
def GET_REVOC_REG_DELTA : String := "117"

/-- Modelled from the spec: the operation payload of each typed ledger read
request the mapper can produce, keeping the fields the spec names (identifier,
optional sequence number and timestamps). -/
inductive Operation where
  | getNymOp (dest : String) (seqNo : Option Int) (timestamp : Option Nat)
  | getSchemaOp (dest : String) (name : String) (version : String)
  | getCredDefOp (id : String)
  | getRevocRegDefOp (id : String)
  | getRevocRegOp (revocRegDefId : String) (timestamp : Int)
  | getRevocRegDeltaOp (revocRegDefId : String) (fromTime : Option Int)
      (toTime : Int)
  | getAttribOp (dest : String) (raw : Option String)
deriving DecidableEq, Repr

/-- Modelled from the spec: a `PreparedRequest` — the protocol version baked in
by the builder, the transaction type, and the operation payload of the request
body. -/
structure PreparedRequest where
  protocolVersion : Nat
  txnType : String
  operation : Operation
deriving DecidableEq, Repr

/-- Modelled from the spec: `RequestBuilder` carries a protocol-version
parameter and offers one pure constructor per typed read request. -/
structure RequestBuilder where
  protocolVersion : Nat
deriving DecidableEq, Repr

/-- `RequestBuilder::default()`: protocol version `Node1_4 = 2`. -/
def RequestBuilder.default : RequestBuilder := ⟨2⟩

/-- `build_get_nym_request`. -/
def RequestBuilder.buildGetNymRequest (b : RequestBuilder) (dest : String)
    (seqNo : Option Int) (timestamp : Option Nat) :
    Except VdrError PreparedRequest :=
  Except.ok ⟨b.protocolVersion, GET_NYM, .getNymOp dest seqNo timestamp⟩

/-- `build_get_schema_request` on `SchemaId::new(dest, name, version)`. -/
def RequestBuilder.buildGetSchemaRequest (b : RequestBuilder) (dest : String)
    (name : String) (version : String) : Except VdrError PreparedRequest :=
  Except.ok ⟨b.protocolVersion, GET_SCHEMA, .getSchemaOp dest name version⟩

/-- `build_get_cred_def_request`. -/
def RequestBuilder.buildGetCredDefRequest (b : RequestBuilder) (id : String) :
    Except VdrError PreparedRequest :=
  Except.ok ⟨b.protocolVersion, GET_CRED_DEF, .getCredDefOp id⟩

/-- `build_get_revoc_reg_def_request`. -/
def RequestBuilder.buildGetRevocRegDefRequest (b : RequestBuilder)
    (id : String) : Except VdrError PreparedRequest :=
  Except.ok ⟨b.protocolVersion, GET_REVOC_REG_DEF, .getRevocRegDefOp id⟩

/-- `build_get_revoc_reg_request`. -/
def RequestBuilder.buildGetRevocRegRequest (b : RequestBuilder) (id : String)
    (timestamp : Int) : Except VdrError PreparedRequest :=
  Except.ok ⟨b.protocolVersion, GET_REVOC_REG, .getRevocRegOp id timestamp⟩

/-- `build_get_revoc_reg_delta_request`. -/
def RequestBuilder.buildGetRevocRegDeltaRequest (b : RequestBuilder)
    (id : String) (fromTime : Option Int) (toTime : Int) :
    Except VdrError PreparedRequest :=
  Except.ok
    ⟨b.protocolVersion, GET_REVOC_REG_DELTA,
      .getRevocRegDeltaOp id fromTime toTime⟩

/-- `build_get_attrib_request` for a raw attribute name. -/
def RequestBuilder.buildGetAttribRequest (b : RequestBuilder) (dest : String)
    (raw : Option String) : Except VdrError PreparedRequest :=
  Except.ok ⟨b.protocolVersion, GET_ATTR, .getAttribOp dest raw⟩

/-- The credential-definition identifier `<did-id>:3:CL:<seq>:<name>`. -/
def credDefIdStr (didId : String) (seqNo : Nat) (name : String) : String :=
  didId ++ ":3:CL:" ++ toString seqNo ++ ":" ++ name

/-- The revocation-registry identifier
`<did-id>:4:<did-id>:3:CL:<seq>:<claim_def_name>:CL_ACCUM:<tag>`. -/
def revRegIdStr (didId : String) (seqNo : Nat) (claimDefName tag : String) :
    String :=
  didId ++ ":4:" ++ didId ++ ":3:CL:" ++ toString seqNo ++ ":" ++
    claimDefName ++ ":CL_ACCUM:" ++ tag

/-- `build_request`: map a parsed DID URL and a request builder to the typed
ledger read request. The current wall-clock time consulted by `parse_or_now`
is passed explicitly as `now`. -/
def buildRequest (did : DidUrl) (builder : RequestBuilder) (now : Int) :
    Except VdrError PreparedRequest :=
  match did.path with
  | some path =>
    match LedgerObject.fromStr path with
    | Except.error e => Except.error e
    | Except.ok (LedgerObject.schemaKind s) =>
      builder.buildGetSchemaRequest did.id s.name s.version
    | Except.ok (LedgerObject.claimDef c) =>
      builder.buildGetCredDefRequest (credDefIdStr did.id c.schemaSeqNo c.name)
    | Except.ok (LedgerObject.revRegDef r) =>
      builder.buildGetRevocRegDefRequest
        (revRegIdStr did.id r.schemaSeqNo r.claimDefName r.tag)
    | Except.ok (LedgerObject.revRegEntry r) =>
      if (queryGet did.query .fromParam).isSome ∨
          (queryGet did.query .toParam).isSome then
        let fromTime := (queryGet did.query .fromParam).bind parseRfc3339
        match parseOrNow (queryGet did.query .toParam) now with
        | Except.error e => Except.error e
        | Except.ok toTime =>
          builder.buildGetRevocRegDeltaRequest
            (revRegIdStr did.id r.schemaSeqNo r.claimDefName r.tag)
            fromTime toTime
      else
        match parseOrNow (queryGet did.query .versionTime) now with
        | Except.error e => Except.error e
        | Except.ok timestamp =>
          builder.buildGetRevocRegRequest
            (revRegIdStr did.id r.schemaSeqNo r.claimDefName r.tag) timestamp
    | Except.ok (LedgerObject.revRegDelta r) =>
      let fromTime := (queryGet did.query .fromParam).bind parseRfc3339
      match parseOrNow (queryGet did.query .toParam) now with
      | Except.error e => Except.error e
      | Except.ok toTime =>
        builder.buildGetRevocRegDeltaRequest
          (revRegIdStr did.id r.schemaSeqNo r.claimDefName r.tag)
          fromTime toTime
  | none =>
    let seqNo : Option Int :=
      (queryGet did.query .versionId).bind parseIntSeg
    let timestamp : Option Nat :=
      (((queryGet did.query .versionTime).bind parseRfc3339).map
        (fun d => (d.emod (2 ^ 64)).toNat))
    builder.buildGetNymRequest did.id seqNo timestamp

/-- The reserved attribute name of the legacy endpoint
(`LEGACY_INDY_SERVICE`). -/
def LEGACY_INDY_SERVICE : String := "endpoint"

/-- Modelled from the spec: `Endpoint` (crate `ledger::responses`) — the parsed
legacy endpoint payload; we keep the parsed value. -/
structure Endpoint where
  value : Json
deriving DecidableEq, Repr

/-- Modelled from the spec: `GetNymResultV1` — the decoded NYM data with its
`dest`, `verkey` and optional inline `diddoc_content`. -/
structure GetNymResult where
  dest : String
  verkey : String
  diddocContent : Option Json
deriving DecidableEq, Repr

/-- Modelled from the spec: `DidDocument::new(namespace, dest, verkey,
endpoint, None)` — the DID document assembled from a NYM result, retaining the
constructor arguments (`@context`, `id` and `verificationMethod` are derived
from them). -/
structure DidDocument where
  nameSpace : String
  dest : String
  verkey : String
  endpoint : Option Endpoint
deriving DecidableEq, Repr

/-- The resolver's `Result`: a DID document (resolution) or raw content
(dereferencing). -/
inductive Result where
  | didDocument (doc : DidDocument)
  | content (value : Json)
deriving DecidableEq, Repr

/-- `ContentMetadata { node_response, object_type }`. -/
structure ContentMetadata where
  nodeResponse : Json
  objectType : String
deriving DecidableEq, Repr

/-- `RequestResult`: terminal outcome the pool reports for one request. -/
inductive RequestResult (α : Type) where
  | reply (a : α)
  | failed (e : VdrError)
deriving DecidableEq, Repr

/-- One pool answer to one dispatched request, as delivered to the resolver:
either a transport-level error (`Err`) or a `RequestResult` whose reply body is
the parsed node response. -/
abbrev PoolReply := Except VdrError (RequestResult Json)

/-- `parse_ledger_data`: extract `result.data` from a node response; a null (or
absent) data field is `ResolverError("Empty data in ledger response")`. -/
def parseLedgerData (ledgerData : Json) : Except VdrError Json :=
  let data := (ledgerData.getField "result").getField "data"
  if data = Json.null then
    Except.error ⟨.resolver, "Empty data in ledger response"⟩
  else
    Except.ok data

/-- Modelled from the spec: `serde_json::from_str::<GetNymResultV1>` applied to
the string payload of `result.data` (we model the stringified payload as the
parsed object). Decoding succeeds when `dest` and `verkey` are present strings;
a missing `diddoc_content` is `None`; any other shape is a decode failure. -/
def decodeGetNym (data : Json) : Option GetNymResult :=
  match data.getField "dest", data.getField "verkey" with
  | Json.str dest, Json.str verkey =>
    let dd := data.getField "diddoc_content"
    some ⟨dest, verkey, if dd = Json.null then none else some dd⟩
  | _, _ => none

/-- Modelled from the spec: `serde_json::from_str::<Endpoint>` applied to the
string payload of the ATTRIB `result.data`; decoding succeeds when an
`endpoint` field is present. -/
def decodeEndpoint (data : Json) : Option Endpoint :=
  match data.getField "endpoint" with
  | Json.null => none
  | v => some ⟨v⟩

/-- `PoolResolver::handle_request`: block on the request future and surface a
`Failed` result as the error it carries. -/
def handleRequest (reply : PoolReply) : Except VdrError Json :=
  match reply with
  | Except.error e => Except.error e
  | Except.ok (RequestResult.reply data) => Except.ok data
  | Except.ok (RequestResult.failed e) => Except.error e

/-- `PoolResolver::fetch_legacy_endpoint`: issue a GET_ATTRIB request for the
reserved `endpoint` attribute (its pool answer is `attribReply`) and decode the
endpoint from the reply data. -/
def fetchLegacyEndpoint (attribReply : PoolReply) : Except VdrError Endpoint :=
  match handleRequest attribReply with
  | Except.error e => Except.error e
  | Except.ok ledgerData =>
    match parseLedgerData ledgerData with
    | Except.error e => Except.error e
    | Except.ok endpointData =>
      match decodeEndpoint endpointData with
      | some e => Except.ok e
      | none => Except.error ⟨.resolver, "Could not parse endpoint data"⟩

/-- `PoolResolver::_resolve` (direct, blocking mode): build the request, block
on the pool for the main answer (`mainReply`), extract `result.data`, branch on
the request's transaction type — decoding NYM replies into a DID document with
the legacy-endpoint fallback (whose own pool answer is `attribReply`, errors
swallowed) when `diddoc_content` is absent — and pair the result with the
`ContentMetadata` holding the node response and object-type label. -/
def directResolve (didUrl : DidUrl) (builder : RequestBuilder) (now : Int)
    (mainReply attribReply : PoolReply) :
    Except VdrError (Result × ContentMetadata) :=
  match buildRequest didUrl builder now with
  | Except.error e => Except.error e
  | Except.ok request =>
    match handleRequest mainReply with
    | Except.error e => Except.error e
    | Except.ok ledgerData =>
      match parseLedgerData ledgerData with
      | Except.error e => Except.error e
      | Except.ok data =>
        if request.txnType = GET_NYM then
          match decodeGetNym data with
          | none => Except.error ⟨.resolver, "Could not parse NYM data"⟩
          | some getNymResult =>
            let endpoint : Option Endpoint :=
              if getNymResult.diddocContent.isNone then
                (fetchLegacyEndpoint attribReply).toOption
              else
                none
            let didDocument : DidDocument :=
              ⟨didUrl.nameSpace, getNymResult.dest, getNymResult.verkey,
                endpoint⟩
            Except.ok (Result.didDocument didDocument, ⟨ledgerData, "NYM"⟩)
        else
          let pair : Result × String :=
            if request.txnType = GET_CRED_DEF then
              (Result.content data, "CRED_DEF")
            else if request.txnType = GET_SCHEMA then
              (Result.content data, "SCHEMA")
            else if request.txnType = GET_REVOC_REG_DEF then
              (Result.content data, "REVOC_REG_DEF")
            else if request.txnType = GET_REVOC_REG_DELTA then
              (Result.content data, "REVOC_REG_DELTA")
            else
              (Result.content data, "UNKOWN")
          Except.ok (pair.1, ⟨ledgerData, pair.2⟩)

instance {ε α : Type} [DecidableEq ε] [DecidableEq α] :
    DecidableEq (Except ε α) := fun x y =>
  match x, y with
  | Except.ok a, Except.ok b =>
    if h : a = b then isTrue (by rw [h])
    else isFalse (by intro hc; cases hc; exact h rfl)
  | Except.error a, Except.error b =>
    if h : a = b then isTrue (by rw [h])
    else isFalse (by intro hc; cases hc; exact h rfl)
  | Except.ok _, Except.error _ => isFalse (by intro hc; cases hc)
  | Except.error _, Except.ok _ => isFalse (by intro hc; cases hc)

/-- Outcome of one runner-mode `_resolve` call after the pool has delivered
its answer: either a thread panic (an `unwrap()` of a failed parse inside the
completion closure) or the finite list of invocations of the user callback. -/
inductive RunnerOutcome where
  | panicked
  | callbacks (invocations : List (Except VdrError (Result × ContentMetadata)))
deriving DecidableEq, Repr

/-- `PoolRunnerResolver::_resolve` (runner, callback mode): build the request
with `RequestBuilder::default()` and send it through the runner; the completion
closure receives the pool's answer (`mainReply`) and drives the user callback.
The legacy-endpoint fallback for NYM replies lacking `diddoc_content` is
commented out in the source (`TODO: Fix fetch_legacy_endpoint`), so on that
path the closure returns without invoking the callback at all. Errors returned
directly (before any callback can run) are the `Except.error` results. -/
def runnerResolve (didUrl : DidUrl) (now : Int) (mainReply : PoolReply) :
    Except VdrError RunnerOutcome :=
  match buildRequest didUrl RequestBuilder.default now with
  | Except.error e => Except.error e
  | Except.ok request =>
    let txnType := request.txnType
    match mainReply with
    | Except.ok (RequestResult.reply replyData) =>
      match parseLedgerData replyData with
      | Except.error _ => Except.ok RunnerOutcome.panicked
      | Except.ok data =>
        if txnType = GET_NYM then
          match decodeGetNym data with
          | none => Except.ok RunnerOutcome.panicked
          | some getNymResult =>
            if getNymResult.diddocContent.isNone then
              Except.ok (RunnerOutcome.callbacks [])
            else
              let didDocument : DidDocument :=
                ⟨didUrl.nameSpace, getNymResult.dest, getNymResult.verkey,
                  none⟩
              Except.ok (RunnerOutcome.callbacks
                [Except.ok (Result.didDocument didDocument,
                  ⟨replyData, "NYM"⟩)])
        else
          let objectType : String :=
            if txnType = GET_CRED_DEF then "CRED_DEF"
            else if txnType = GET_SCHEMA then "SCHEMA"
            else if txnType = GET_REVOC_REG_DEF then "REVOC_REG_DEF"
            else if txnType = GET_REVOC_REG_DELTA then "REVOC_REG_DELTA"
            else "UNKOWN"
          Except.ok (RunnerOutcome.callbacks
            [Except.ok (Result.content data, ⟨replyData, objectType⟩)])
    | Except.ok (RequestResult.failed err) =>
      Except.ok (RunnerOutcome.callbacks [Except.error err])
    | Except.error err =>
      Except.ok (RunnerOutcome.callbacks [Except.error err])

/-- Sample DID URL naming a RevRegEntry object, without query parameters. -/
def revRegEntryUrl : DidUrl :=
  ⟨"idunion", "Dk1fRRTtNazyMuK2cr64wp",
    some "anoncreds/v0/REV_REG_ENTRY/104/revocable/a4e25e54", []⟩

/-- Sample DID URL naming a RevRegEntry object, with `from` and `to`. -/
def revRegEntryFromToUrl : DidUrl :=
  ⟨"idunion", "Dk1fRRTtNazyMuK2cr64wp",
    some "anoncreds/v0/REV_REG_ENTRY/104/revocable/a4e25e54",
    [(QueryParameter.fromParam, "2019-12-20T19:17:47Z"),
      (QueryParameter.toParam, "2020-12-20T19:17:47Z")]⟩

/-- Sample pathless DID URL (a plain DID), without query parameters. -/
def nymUrl : DidUrl := ⟨"idunion", "Dk1fRRTtNazyMuK2cr64wp", none, []⟩

/-- Sample pathless DID URL carrying an unparseable `versionTime`. -/
def badVersionTimeNymUrl : DidUrl :=
  ⟨"idunion", "Dk1fRRTtNazyMuK2cr64wp", none,
    [(QueryParameter.versionTime, "20201220T19:17:47Z")]⟩

/-- Sample NYM `result.data` payload without `diddoc_content`. -/
def nymDataNoDiddoc : Json :=
  Json.objCons "dest" (Json.str "Dk1fRRTtNazyMuK2cr64wp")
    (Json.objCons "verkey" (Json.str "~CoRER63DVYnWZtK8uAzNbx") Json.objNil)

/-- Sample node response wrapping `nymDataNoDiddoc` under `result.data`. -/
def nymNodeRespNoDiddoc : Json :=
  Json.objCons "result" (Json.objCons "data" nymDataNoDiddoc Json.objNil)
    Json.objNil

/-- Sample pool answer delivering `nymNodeRespNoDiddoc`. -/
def nymReplyNoDiddoc : PoolReply :=
  Except.ok (RequestResult.reply nymNodeRespNoDiddoc)

/-- Sample ATTRIB `result.data` payload carrying a legacy endpoint. -/
def endpointAttribData : Json :=
  Json.objCons "endpoint"
    (Json.objCons "endpoint" (Json.str "https://agent.example.com") Json.objNil)
    Json.objNil

/-- Sample node response wrapping `endpointAttribData` under `result.data`. -/
def attribNodeResp : Json :=
  Json.objCons "result" (Json.objCons "data" endpointAttribData Json.objNil)
    Json.objNil

/-- Sample pool answer delivering `attribNodeResp`. -/
def attribReplyOk : PoolReply :=
  Except.ok (RequestResult.reply attribNodeResp)

/-- Sample revocation-registry `result.data` payload. -/
def revRegData : Json :=
  Json.objCons "accum" (Json.str "21 101 ...") Json.objNil

/-- Sample node response wrapping `revRegData` under `result.data`. -/
def revRegNodeResp : Json :=
  Json.objCons "result" (Json.objCons "data" revRegData Json.objNil) Json.objNil

/-- C2 (code bug, failing input): in runner mode, a successful `GET_NYM` reply
whose decoded NYM result has no `diddoc_content` makes the completion closure
return without ever invoking the user callback — the legacy-endpoint fallback
that would deliver the result is commented out in the source
(`TODO: Fix fetch_legacy_endpoint`) — contradicting the claim that the user
callback is invoked exactly once on every terminal path. -/
theorem runner_nym_without_diddoc_drops_callback :
    runnerResolve nymUrl 0 nymReplyNoDiddoc =
      Except.ok (RunnerOutcome.callbacks []) := rfl

/-- C3 (code bug, failing input): on a `GET_NYM` reply without
`diddoc_content`, direct mode performs the legacy-endpoint fallback and
delivers a DID document with the fetched endpoint, while runner mode delivers
nothing at all — the two dispatch modes are not equivalent on this terminal
path. -/
theorem direct_runner_mode_divergence :
    directResolve nymUrl RequestBuilder.default 0 nymReplyNoDiddoc
        attribReplyOk =
      Except.ok (Result.didDocument
        ⟨"idunion", "Dk1fRRTtNazyMuK2cr64wp", "~CoRER63DVYnWZtK8uAzNbx",
          some ⟨Json.objCons "endpoint" (Json.str "https://agent.example.com")
            Json.objNil⟩⟩,
        ⟨nymNodeRespNoDiddoc, "NYM"⟩) ∧
    runnerResolve nymUrl 0 nymReplyNoDiddoc =
      Except.ok (RunnerOutcome.callbacks []) := ⟨rfl, rfl⟩

/-- C4 counterexample: `build_request` is not a pure function of
`(DidUrl, RequestBuilder)` alone — for a RevRegEntry URL with no query
parameters the produced request embeds the current wall-clock time
(`parse_or_now` defaults the timestamp to now), so two runs at different times
yield different `PreparedRequest`s for equal inputs. -/
theorem build_request_depends_on_clock :
    buildRequest revRegEntryUrl RequestBuilder.default 100 ≠
      buildRequest revRegEntryUrl RequestBuilder.default 200 := by decide

/-- C4 (amended): `build_request` is a pure function of
`(DidUrl, RequestBuilder)` and the current wall-clock time: equal inputs
evaluated at the same time produce equal `PreparedRequest`s, and the output is
clock-independent whenever the query supplies an explicit `to` parameter (so
that no timestamp is defaulted from the clock). -/
theorem build_request_pure
    (d d' : DidUrl) (b b' : RequestBuilder) (t t' : Int)
    (hd : d = d') (hb : b = b')
    (hclock : t = t' ∨ (queryGet d.query .toParam).isSome) :
    buildRequest d b t = buildRequest d' b' t' := by
  subst hd
  subst hb
  rcases hclock with rfl | h1
  · rfl
  · obtain ⟨tv, htv⟩ := Option.isSome_iff_exists.mp h1
    cases hpath : d.path with
    | none => simp [buildRequest, hpath]
    | some p =>
      cases hobj : LedgerObject.fromStr p with
      | error e => simp [buildRequest, hpath, hobj]
      | ok obj =>
        cases obj with
        | schemaKind s => simp [buildRequest, hpath, hobj]
        | claimDef c => simp [buildRequest, hpath, hobj]
        | revRegDef r => simp [buildRequest, hpath, hobj]
        | revRegEntry r => simp [buildRequest, hpath, hobj, htv, parseOrNow]
        | revRegDelta r => simp [buildRequest, hpath, hobj, htv, parseOrNow]

theorem build_request_pure_witness :
    buildRequest revRegEntryFromToUrl RequestBuilder.default 100 =
      buildRequest revRegEntryFromToUrl RequestBuilder.default 200 :=
  build_request_pure revRegEntryFromToUrl revRegEntryFromToUrl
    RequestBuilder.default RequestBuilder.default 100 200 rfl rfl
    (Or.inr (by decide))

/-- C6 counterexample: a DID URL carrying an unparseable `versionTime` does not
always make `build_request` fail — on the pathless (GET_NYM) route the
unparseable datetime is silently dropped (`.ok()`) and a request is built with
no timestamp, instead of failing with `ResolverError("Could not parse
datetime …")`. -/
theorem build_request_ignores_bad_nym_version_time :
    buildRequest badVersionTimeNymUrl RequestBuilder.default 0 =
      Except.ok ⟨2, GET_NYM,
        Operation.getNymOp "Dk1fRRTtNazyMuK2cr64wp" none none⟩ := rfl

/-- C6 (amended): only a datetime routed through `parse_or_now` causes
failure. With an unparseable datetime value `v`: a RevRegEntry URL with
neither `from` nor `to` and `versionTime = v` fails with
`ResolverError("Could not parse datetime " ++ v)`; a RevRegEntry or
RevRegDelta URL with `to = v` fails likewise; but on the pathless (GET_NYM)
route an unparseable `versionTime` is silently dropped, and on the delta
routes an unparseable `from` is silently dropped. -/
theorem build_request_datetime_parse_errors
    (d : DidUrl) (b : RequestBuilder) (t : Int) (p : String) (v : String)
    (hparse : parseRfc3339 v = none) :
    (∀ r : RevRegFields, d.path = some p →
      LedgerObject.fromStr p = Except.ok (LedgerObject.revRegEntry r) →
      queryGet d.query .fromParam = none → queryGet d.query .toParam = none →
      queryGet d.query .versionTime = some v →
      buildRequest d b t =
        Except.error ⟨.resolver, "Could not parse datetime " ++ v⟩) ∧
    (∀ r : RevRegFields, d.path = some p →
      (LedgerObject.fromStr p = Except.ok (LedgerObject.revRegEntry r) ∨
        LedgerObject.fromStr p = Except.ok (LedgerObject.revRegDelta r)) →
      queryGet d.query .toParam = some v →
      buildRequest d b t =
        Except.error ⟨.resolver, "Could not parse datetime " ++ v⟩) ∧
    (d.path = none → queryGet d.query .versionTime = some v →
      buildRequest d b t = Except.ok ⟨b.protocolVersion, GET_NYM,
        Operation.getNymOp d.id
          ((queryGet d.query .versionId).bind parseIntSeg) none⟩) ∧
    (∀ r : RevRegFields, d.path = some p →
      (LedgerObject.fromStr p = Except.ok (LedgerObject.revRegEntry r) ∨
        LedgerObject.fromStr p = Except.ok (LedgerObject.revRegDelta r)) →
      queryGet d.query .fromParam = some v → queryGet d.query .toParam = none →
      buildRequest d b t = Except.ok ⟨b.protocolVersion, GET_REVOC_REG_DELTA,
        Operation.getRevocRegDeltaOp
          (revRegIdStr d.id r.schemaSeqNo r.claimDefName r.tag) none t⟩) := by
  refine ⟨fun r hpath hobj hf ht hv => ?_,
    fun r hpath hobj ht => ?_, fun hpath hv => ?_,
    fun r hpath hobj hf ht => ?_⟩
  · simp [buildRequest, hpath, hobj, hf, ht, hv, parseOrNow, hparse]
  · rcases hobj with hobj | hobj <;>
      simp [buildRequest, hpath, hobj, ht, parseOrNow, hparse]
  · simp [buildRequest, hpath, hv, hparse,
      RequestBuilder.buildGetNymRequest]
  · rcases hobj with hobj | hobj <;>
      simp [buildRequest, hpath, hobj, hf, ht, hparse, parseOrNow,
        RequestBuilder.buildGetRevocRegDeltaRequest]

theorem build_request_datetime_parse_errors_witness :
    (buildRequest
        ⟨"idunion", "Dk1fRRTtNazyMuK2cr64wp",
          some "anoncreds/v0/REV_REG_ENTRY/104/revocable/a4e25e54",
          [(QueryParameter.versionTime, "20201220T19:17:47Z")]⟩
        RequestBuilder.default 0 =
      Except.error
        ⟨.resolver, "Could not parse datetime 20201220T19:17:47Z"⟩) ∧
    (buildRequest
        ⟨"idunion", "Dk1fRRTtNazyMuK2cr64wp",
          some "anoncreds/v0/REV_REG_DELTA/104/revocable/a4e25e54",
          [(QueryParameter.fromParam, "20201220T19:17:47Z")]⟩
        RequestBuilder.default 0 =
      Except.ok ⟨2, GET_REVOC_REG_DELTA,
        Operation.getRevocRegDeltaOp
          (revRegIdStr "Dk1fRRTtNazyMuK2cr64wp" 104 "revocable" "a4e25e54")
          none 0⟩) :=
  ⟨(build_request_datetime_parse_errors
      ⟨"idunion", "Dk1fRRTtNazyMuK2cr64wp",
        some "anoncreds/v0/REV_REG_ENTRY/104/revocable/a4e25e54",
        [(QueryParameter.versionTime, "20201220T19:17:47Z")]⟩
      RequestBuilder.default 0
      "anoncreds/v0/REV_REG_ENTRY/104/revocable/a4e25e54"
      "20201220T19:17:47Z" (by decide)).1
    ⟨104, "revocable", "a4e25e54"⟩ rfl (by decide) rfl rfl rfl,
  (build_request_datetime_parse_errors
      ⟨"idunion", "Dk1fRRTtNazyMuK2cr64wp",
        some "anoncreds/v0/REV_REG_DELTA/104/revocable/a4e25e54",
        [(QueryParameter.fromParam, "20201220T19:17:47Z")]⟩
      RequestBuilder.default 0
      "anoncreds/v0/REV_REG_DELTA/104/revocable/a4e25e54"
      "20201220T19:17:47Z" (by decide)).2.2.2
    ⟨104, "revocable", "a4e25e54"⟩ rfl (Or.inr (by decide)) rfl rfl⟩

/-- C7: for a DID URL whose path names a RevRegEntry object: with neither
`from` nor `to` present the built request is GET_REVOC_REG whose operation
timestamp is the parsed `versionTime`, or the current wall-clock time when
`versionTime` is absent; with `from` and/or `to` present it is
GET_REVOC_REG_DELTA whose operation `from` equals the parsed `from` (absent
when missing) and whose operation `to` equals the parsed `to`, or the current
wall-clock time when `to` is absent. -/
theorem rev_reg_entry_request_dispatch
    (d : DidUrl) (b : RequestBuilder) (t : Int) (p : String)
    (r : RevRegFields)
    (hpath : d.path = some p)
    (hobj : LedgerObject.fromStr p =
      Except.ok (LedgerObject.revRegEntry r)) :
    (∀ v ts, queryGet d.query .fromParam = none →
      queryGet d.query .toParam = none →
      queryGet d.query .versionTime = some v → parseRfc3339 v = some ts →
      buildRequest d b t = Except.ok ⟨b.protocolVersion, GET_REVOC_REG,
        Operation.getRevocRegOp
          (revRegIdStr d.id r.schemaSeqNo r.claimDefName r.tag) ts⟩) ∧
    (queryGet d.query .fromParam = none → queryGet d.query .toParam = none →
      queryGet d.query .versionTime = none →
      buildRequest d b t = Except.ok ⟨b.protocolVersion, GET_REVOC_REG,
        Operation.getRevocRegOp
          (revRegIdStr d.id r.schemaSeqNo r.claimDefName r.tag) t⟩) ∧
    (∀ fv tf tv tt, queryGet d.query .fromParam = some fv →
      parseRfc3339 fv = some tf →
      queryGet d.query .toParam = some tv → parseRfc3339 tv = some tt →
      buildRequest d b t = Except.ok ⟨b.protocolVersion, GET_REVOC_REG_DELTA,
        Operation.getRevocRegDeltaOp
          (revRegIdStr d.id r.schemaSeqNo r.claimDefName r.tag)
          (some tf) tt⟩) ∧
    (∀ fv tf, queryGet d.query .fromParam = some fv →
      parseRfc3339 fv = some tf → queryGet d.query .toParam = none →
      buildRequest d b t = Except.ok ⟨b.protocolVersion, GET_REVOC_REG_DELTA,
        Operation.getRevocRegDeltaOp
          (revRegIdStr d.id r.schemaSeqNo r.claimDefName r.tag)
          (some tf) t⟩) ∧
    (∀ tv tt, queryGet d.query .fromParam = none →
      queryGet d.query .toParam = some tv → parseRfc3339 tv = some tt →
      buildRequest d b t = Except.ok ⟨b.protocolVersion, GET_REVOC_REG_DELTA,
        Operation.getRevocRegDeltaOp
          (revRegIdStr d.id r.schemaSeqNo r.claimDefName r.tag)
          none tt⟩) := by
  refine ⟨fun v ts hf ht hv hp => ?_, fun hf ht hv => ?_,
    fun fv tf tv tt hf hpf ht hpt => ?_, fun fv tf hf hpf ht => ?_,
    fun tv tt hf ht hpt => ?_⟩
  · simp [buildRequest, hpath, hobj, hf, ht, hv, parseOrNow, hp,
      RequestBuilder.buildGetRevocRegRequest]
  · simp [buildRequest, hpath, hobj, hf, ht, hv, parseOrNow,
      RequestBuilder.buildGetRevocRegRequest]
  · simp [buildRequest, hpath, hobj, hf, hpf, ht, hpt, parseOrNow,
      RequestBuilder.buildGetRevocRegDeltaRequest]
  · simp [buildRequest, hpath, hobj, hf, hpf, ht, parseOrNow,
      RequestBuilder.buildGetRevocRegDeltaRequest]
  · simp [buildRequest, hpath, hobj, hf, ht, hpt, parseOrNow,
      RequestBuilder.buildGetRevocRegDeltaRequest]

theorem rev_reg_entry_request_dispatch_witness :
    buildRequest revRegEntryFromToUrl RequestBuilder.default 0 =
      Except.ok ⟨2, GET_REVOC_REG_DELTA,
        Operation.getRevocRegDeltaOp
          (revRegIdStr "Dk1fRRTtNazyMuK2cr64wp" 104 "revocable" "a4e25e54")
          (some 1576869467) 1608491867⟩ :=
  (rev_reg_entry_request_dispatch revRegEntryFromToUrl
      RequestBuilder.default 0
      "anoncreds/v0/REV_REG_ENTRY/104/revocable/a4e25e54"
      ⟨104, "revocable", "a4e25e54"⟩ rfl (by decide)).2.2.1
    "2019-12-20T19:17:47Z" 1576869467 "2020-12-20T19:17:47Z" 1608491867
    rfl (by decide) rfl (by decide)

/-- C10 counterexample: for a reply whose transaction type is none of the five
handled constants (here GET_REVOC_REG, `"116"`), the resolver wraps the data as
`Result::Content` but sets the object type to the literal `"UNKOWN"`, not
`"UNKNOWN"` as the claim states. -/
theorem resolver_unknown_object_type_misspelled :
    directResolve revRegEntryUrl RequestBuilder.default 5
        (Except.ok (RequestResult.reply revRegNodeResp)) attribReplyOk =
      Except.ok (Result.content revRegData, ⟨revRegNodeResp, "UNKOWN"⟩) ∧
    "UNKOWN" ≠ "UNKNOWN" := ⟨rfl, by decide⟩

/-- C10 (amended): for every ledger reply whose transaction type is none of
GET_NYM, GET_SCHEMA, GET_CRED_DEF, GET_REVOC_REG_DEF, GET_REVOC_REG_DELTA,
both resolver modes wrap `result.data` as `Result::Content` and set the
object-type string of the `ContentMetadata` to `"UNKOWN"` (the source's
misspelling of `"UNKNOWN"`). -/
theorem resolver_default_object_type
    (d : DidUrl) (b : RequestBuilder) (t : Int) (req : PreparedRequest)
    (nodeResp data : Json) (attribReply : PoolReply)
    (hreq : buildRequest d b t = Except.ok req)
    (hty : req.txnType ∉ ([GET_NYM, GET_SCHEMA, GET_CRED_DEF,
      GET_REVOC_REG_DEF, GET_REVOC_REG_DELTA] : List String))
    (hdata : parseLedgerData nodeResp = Except.ok data) :
    directResolve d b t (Except.ok (RequestResult.reply nodeResp))
        attribReply =
      Except.ok (Result.content data, ⟨nodeResp, "UNKOWN"⟩) ∧
    (buildRequest d RequestBuilder.default t = Except.ok req →
      runnerResolve d t (Except.ok (RequestResult.reply nodeResp)) =
        Except.ok (RunnerOutcome.callbacks
          [Except.ok (Result.content data, ⟨nodeResp, "UNKOWN"⟩)])) := by
  simp only [List.mem_cons, List.mem_singleton, not_or] at hty
  obtain ⟨h1, h2, h3, h4, h5, _⟩ := hty
  constructor
  · simp [directResolve, hreq, handleRequest, hdata, h1, h2, h3, h4, h5]
  · intro hreq'
    simp [runnerResolve, hreq', hdata, h1, h2, h3, h4, h5]

theorem resolver_default_object_type_witness :
    directResolve revRegEntryUrl RequestBuilder.default 5
        (Except.ok (RequestResult.reply revRegNodeResp)) attribReplyOk =
      Except.ok (Result.content revRegData, ⟨revRegNodeResp, "UNKOWN"⟩) :=
  (resolver_default_object_type revRegEntryUrl RequestBuilder.default 5
      ⟨2, GET_REVOC_REG,
        Operation.getRevocRegOp
          (revRegIdStr "Dk1fRRTtNazyMuK2cr64wp" 104 "revocable" "a4e25e54")
          5⟩
      revRegNodeResp revRegData attribReplyOk (by decide) (by decide)
      rfl).1

end Resolver
